import Mathlib

/-!
A shallow embedding of `awsorgs/accounts.py` (aws-orgs): account-creation
reconciliation, per-account alias synchronization, and invitation handling,
together with proofs of the behavioural properties stated in the
specification.

Remote AWS calls made by the program are recorded as an explicit trace of
effects (`Eff`).  The responses the remote service would return are supplied
by environment records (`OrgClient` for the organizations client, `IamClient`
for an account-scoped IAM session) passed to each operation, so every
operation is a pure function from its inputs and environment to the trace it
emits plus its return value.
-/

namespace AwsOrgs

/-- One observable action of the program: a remote API call, a sleep, or a
log line.  Alias operations are tagged with the account id that the IAM
session issuing them is scoped to.  `logData` stands for a log line whose
payload is a data structure rather than a fixed format string. -/
inductive Eff where
  | scanCreatedAccounts : Eff
  | createAccount (accountName email : String) : Eff
  | describeCreateAccountStatus (requestId : String) : Eff
  | sleep (seconds : Nat) : Eff
  | listAccountAliases (accountId : String) : Eff
  | createAccountAlias (accountId proposedAlias : String) : Eff
  | deleteAccountAlias (accountId oldAlias : String) : Eff
  | listHandshakesForOrganization : Eff
  | inviteAccountToOrganization (accountId : String) : Eff
  | log (level msg : String) : Eff
  | logData (level : String) : Eff
deriving DecidableEq, Repr

/-- The four remote calls that mutate remote state; everything else in `Eff`
is a read, a sleep or a log line. -/
def Eff.isMutating : Eff → Bool
  | Eff.createAccount _ _ => true
  | Eff.createAccountAlias _ _ => true
  | Eff.deleteAccountAlias _ _ => true
  | Eff.inviteAccountToOrganization _ => true
  | _ => false

/-- The mutating remote calls occurring in a trace, in order. -/
def mutations (t : List Eff) : List Eff :=
  t.filter Eff.isMutating

/-- One entry of `account_spec[accounts]`: `Name` is required, `Email` and
`Alias` are optional keys.  An `Email` of `some ""` models a present but
empty (falsy) value. -/
structure AccountSpecEntry where
  Name : String
  Email : Option String := none
  Alias : Option String := none
deriving DecidableEq, Repr

/-- The account specification document: `default_domain` plus the list of
account entries. -/
structure OrgSpec where
  default_domain : String
  accounts : List AccountSpecEntry
deriving DecidableEq, Repr

/-- An account as observed in the organization (`scan_deployed_accounts`
output). -/
structure DeployedAccount where
  Id : String
  Name : String
  Email : String
  Status : String
  Alias : Option String := none
deriving DecidableEq, Repr

/-- Result of `describe_create_account_status`: the `CreateAccountStatus`
object, of which the code reads `State` and `FailureReason`. -/
structure CreateStatus where
  State : String
  FailureReason : String := ""
deriving DecidableEq, Repr

/-- An in-flight account-creation request as returned by
`scan_created_accounts`. -/
structure CreationRequest where
  RequestId : String
  AccountName : String
  State : String
  FailureReason : String := ""
deriving DecidableEq, Repr

/-- One party of a handshake.  The response key is `Type`, which Lean
reserves, so the field is named `PartyType`. -/
structure Party where
  Id : String
  PartyType : String
deriving DecidableEq, Repr

/-- An invitation handshake as returned by
`list_handshakes_for_organization`. -/
structure Handshake where
  Id : String
  Parties : List Party
  State : String
  ExpirationTimestamp : String := ""
deriving DecidableEq, Repr

/-- The command-line arguments the embedded operations read: the `--exec`
flag, `--org-access-role`, and `--invited-account-id` (absent when not
given on the command line). -/
structure Args where
  exec : Bool
  orgAccessRole : String := ""
  invitedAccountId : Option String := none

/-- The environment of the organizations client: the responses the remote
service returns to each read or submit call.  `createdAccounts` is the
(fixed, per run) response of `scan_created_accounts`; `describeStatus id n`
is the `CreateAccountStatus` returned by the `n`-th
`describe_create_account_status` poll for request `id`;
`handshakeFirstPage`/`handshakeMorePages` are the pages served by the
paginated handshake listing; `inviteHandshake id` is the handshake returned
when inviting account `id`. -/
structure OrgClient where
  createdAccounts : List CreationRequest
  createAccountId : String → String → String
  describeStatus : String → Nat → CreateStatus
  handshakeFirstPage : List Handshake
  handshakeMorePages : List (List Handshake)
  inviteHandshake : String → Handshake

/-- An account-scoped IAM session: the alias listing it returns and, for a
`create_account_alias` call with a given alias, the exception message it
raises if any (the call is issued either way; `some e` means the call raised
and `e` is logged by the surrounding `except` clause). -/
structure IamClient where
  AccountAliases : List String
  createAliasExc : String → Option String

/-- Modelled from the spec: `utils.lookup` (awsorgs.utils, not under src/)
looks a record up in a list by the value of one field, returning the first
record whose field matches; `Name` is the natural key for matching spec to
deployed state and `Id` the natural key for invitations (spec section 3). -/
def lookup {α : Type} (dlist : List α) (key : α → String) (lvalue : String) : Option α :=
  dlist.find? (fun d => key d == lvalue)

/-- Modelled from the spec: `utils.valid_account_id` (awsorgs.utils, not
under src/) performs the structural validity check on an AWS account
identifier: twelve decimal digits. -/
def valid_account_id (account_id : String) : Bool :=
  account_id.data.length == 12 && account_id.data.all Char.isDigit

/-- The email address computed for a new account (accounts.py lines 67-70):
the spec entry's `Email` when present and non-empty, otherwise
`Name@default_domain`. -/
def email_for (a_spec : AccountSpecEntry) (default_domain : String) : String :=
  match a_spec.Email with
  | some e => if e = "" then a_spec.Name ++ "@" ++ default_domain else e
  | none => a_spec.Name ++ "@" ++ default_domain

/-- The creation-status polling loop (accounts.py lines 80-97): `counter` is
the loop counter, `fuel` is `maxtries - counter`.  Returns the trace of the
loop, the final value of `counter`, and the last `CreateAccountStatus`
observed (`none` when the loop body never ran).  While the state is
`IN_PROGRESS` the loop sleeps 5 seconds, logs, increments the counter and
polls again; on `SUCCEEDED` or `FAILED` it logs and breaks before the
counter is incremented; on any other state it just increments and
continues. -/
def pollLoop (describe : Nat → CreateStatus) (create_id name : String)
    (counter fuel : Nat) : List Eff × Nat × Option CreateStatus :=
  match fuel with
  | 0 => ([], counter, none)
  | Nat.succ fuel1 =>
      let creation := describe counter
      let d := Eff.describeCreateAccountStatus create_id
      if creation.State = "IN_PROGRESS" then
        let rest := pollLoop describe create_id name (counter + 1) fuel1
        (d :: Eff.sleep 5 ::
           Eff.log ("info") ("Account creation in progress for \x27" ++ name ++ "\x27") ::
           rest.1,
         rest.2.1, some (rest.2.2.getD creation))
      else if creation.State = "SUCCEEDED" then
        ([d, Eff.log ("info") ("Account creation succeeded")], counter, some creation)
      else if creation.State = "FAILED" then
        ([d, Eff.log ("error") ("Account creation failed: " ++ creation.FailureReason)],
         counter, some creation)
      else
        let rest := pollLoop describe create_id name (counter + 1) fuel1
        (d :: rest.1, rest.2.1, some (rest.2.2.getD creation))

/-- The post-submission status validation (accounts.py lines 79-99): run the
polling loop with `maxtries = 5` from `counter = 0`, then, if the counter
reached `maxtries` with the last observed state still `IN_PROGRESS`, warn
that creation is still pending and move on. -/
def validate_creation (client : OrgClient) (create_id name : String) : List Eff :=
  let r := pollLoop (client.describeStatus create_id) create_id name 0 5
  r.1 ++
    (if r.2.1 = 5 ∧ (r.2.2.map CreateStatus.State = some "IN_PROGRESS") then
      [Eff.log ("warn") ("Account creation still pending. Moving on!")]
    else [])

/-- The per-entry creation step (accounts.py lines 66-99) reached once an
entry is known to be absent from deployed accounts and from in-flight
creation requests: compute the email, log, and, only under `--exec`, submit
the creation call and validate its status. -/
def create_account_entry (client : OrgClient) (args : Args) (default_domain : String)
    (a_spec : AccountSpecEntry) : List Eff :=
  let email_addr := email_for a_spec default_domain
  Eff.log ("info") ("Creating account \x27" ++ a_spec.Name ++ "\x27") ::
  Eff.log ("debug") ("account email: " ++ email_addr) ::
  (if args.exec then
    let create_id := client.createAccountId a_spec.Name email_addr
    Eff.createAccount a_spec.Name email_addr ::
    Eff.log ("info") ("CreateAccountStatus Id: " ++ create_id) ::
    validate_creation client create_id a_spec.Name
  else [])

/-- The `for a_spec in account_spec[accounts]` loop of `create_accounts`
(accounts.py lines 59-99).  An entry found in deployed accounts by `Name` is
skipped; otherwise the in-flight requests are re-scanned and, when the name
matches an in-flight request, a warning is logged and the loop `break`s,
halting all further processing; otherwise the entry is created. -/
def create_accounts_go (client : OrgClient) (args : Args)
    (deployed_accounts : List DeployedAccount) (default_domain : String) :
    List AccountSpecEntry → List Eff
  | [] => []
  | a_spec :: rest =>
      if (lookup deployed_accounts (fun a => a.Name) a_spec.Name).isSome then
        create_accounts_go client args deployed_accounts default_domain rest
      else
        Eff.scanCreatedAccounts ::
        (if (lookup client.createdAccounts (fun c => c.AccountName) a_spec.Name).isSome then
          [Eff.log ("warn") ("New account \x27" ++ a_spec.Name ++ "\x27 is not yet available")]
        else
          create_account_entry client args default_domain a_spec ++
          create_accounts_go client args deployed_accounts default_domain rest)

/-- `create_accounts` (accounts.py lines 54-99): compare deployed accounts
to the accounts spec and create the accounts not found. -/
def create_accounts (client : OrgClient) (args : Args)
    (deployed_accounts : List DeployedAccount) (account_spec : OrgSpec) : List Eff :=
  create_accounts_go client args deployed_accounts account_spec.default_domain
    account_spec.accounts

/-- Python str.lower as the code applies it to account names (accounts.py
line 112), modelled per character. -/
def pyLower (s : String) : String :=
  String.mk (s.data.map Char.toLower)

/-- The alias proposed for an account (accounts.py lines 108-112): the
matching spec entry's Alias when that entry exists and carries one,
otherwise the lowercased account Name. -/
def proposed_alias_for (account_spec : OrgSpec) (account : DeployedAccount) : String :=
  match lookup account_spec.accounts (fun s => s.Name) account.Name with
  | some s =>
      match s.Alias with
      | some al => al
      | none => pyLower account.Name
  | none => pyLower account.Name

/-- `set_account_alias` (accounts.py lines 102-138).  `assumeRole` models
`get_assume_role_credentials` followed by building the IAM client (an
external collaborator, injected): on error the code logs the error object
and then crashes with an unbound local `iam_client` at the
`list_account_aliases` call, issuing no remote call for this account — the
second component is `false` when the function raised instead of returning.
Otherwise: list the aliases; if none, create the proposed alias (under
`--exec`); if the first listed alias differs from the proposed one, delete
it and create the proposed alias (under `--exec`); if it matches, do
nothing.  The `create_account_alias` call sits in a `try/except` that logs
the exception; the `delete_account_alias` call does not. -/
def set_account_alias (account : DeployedAccount) (args : Args) (account_spec : OrgSpec)
    (assumeRole : String → String → Except String IamClient) (role : String) :
    List Eff × Bool :=
  if account.Status = "ACTIVE" then
    let proposed_alias := proposed_alias_for account_spec account
    match assumeRole account.Id args.orgAccessRole with
    | Except.error e => ([Eff.log ("error") e], false)
    | Except.ok iam_client =>
        let aliases := iam_client.AccountAliases
        let t0 := [Eff.listAccountAliases account.Id, Eff.logData ("debug")]
        match aliases with
        | [] =>
            let t1 := [Eff.log ("info")
              ("setting account alias to \x27" ++ proposed_alias ++
               "\x27 for account \x27" ++ account.Name ++ "\x27")]
            if args.exec then
              match iam_client.createAliasExc proposed_alias with
              | some err =>
                  (t0 ++ t1 ++ [Eff.createAccountAlias account.Id proposed_alias,
                    Eff.log ("error") err], true)
              | none =>
                  (t0 ++ t1 ++ [Eff.createAccountAlias account.Id proposed_alias], true)
            else (t0 ++ t1, true)
        | a0 :: _ =>
            if a0 = proposed_alias then (t0, true)
            else
              let t1 := [Eff.log ("info")
                ("resetting account alias for account \x27" ++ account.Name ++
                 "\x27 to \x27" ++ proposed_alias ++ "\x27; previous alias was \x27" ++
                 a0 ++ "\x27")]
              if args.exec then
                match iam_client.createAliasExc proposed_alias with
                | some err =>
                    (t0 ++ t1 ++ [Eff.deleteAccountAlias account.Id a0,
                      Eff.createAccountAlias account.Id proposed_alias,
                      Eff.log ("error") err], true)
                | none =>
                    (t0 ++ t1 ++ [Eff.deleteAccountAlias account.Id a0,
                      Eff.createAccountAlias account.Id proposed_alias], true)
              else (t0 ++ t1, true)
  else ([], true)

/-- Modelled from the spec: `utils.queue_threads` (awsorgs.utils, not under
src/) fans the per-account alias synchronization out over a bounded worker
pool with per-account failure isolation (spec section 5); each account's
result is computed independently of the others, so it is modelled as the
per-account application of `set_account_alias` over the deployed list, as
`main` invokes it in `alias` mode (accounts.py lines 269-272). -/
def queue_threads_alias (deployed_accounts : List DeployedAccount) (args : Args)
    (account_spec : OrgSpec) (assumeRole : String → String → Except String IamClient)
    (role : String) : List (List Eff × Bool) :=
  deployed_accounts.map (fun account =>
    set_account_alias account args account_spec assumeRole role)

/-- The `while NextToken` pagination loop of `scan_invited_accounts`
(accounts.py lines 146-150): `acc` is the `handshakes` accumulator, the list
argument the pages still to be fetched; each iteration issues one listing
call and appends that page. -/
def scanHandshakePages (acc : List Handshake) :
    List (List Handshake) → List Eff × List Handshake
  | [] => ([], acc)
  | page :: more =>
      let r := scanHandshakePages (acc ++ page) more
      (Eff.listHandshakesForOrganization :: r.1, r.2)

/-- `scan_invited_accounts` (accounts.py lines 141-152): the initial listing
call, the pagination loop, a debug log of the result, and the aggregated
handshake list. -/
def scan_invited_accounts (client : OrgClient) : List Eff × List Handshake :=
  let r := scanHandshakePages client.handshakeFirstPage client.handshakeMorePages
  (Eff.listHandshakesForOrganization :: r.1 ++ [Eff.logData ("debug")], r.2)

/-- The handshakes of the scan whose `ACCOUNT` party has the given id
(accounts.py lines 168-169). -/
def account_invite_for (client : OrgClient) (account_id : String) : List Handshake :=
  (scan_invited_accounts client).2.filter (fun invite =>
    ((lookup invite.Parties (fun p => p.PartyType) ("ACCOUNT")).map (fun p => p.Id)) ==
      some account_id)

/-- How `invite_account` ends: `exited code` models `sys.exit(code)`;
`returned h` models a normal return, with `h = some handshake` only on the
exec-mode invitation path. -/
inductive InviteReturn where
  | exited (code : Nat) : InviteReturn
  | returned (h : Option Handshake) : InviteReturn
deriving DecidableEq, Repr

/-- The final segment of `invite_account` (accounts.py lines 181-187),
reached when no precondition blocks: log, and under `--exec` issue the
invitation and return the new handshake. -/
def invite_issue (args : Args) (client : OrgClient) (account_id : String) :
    List Eff × InviteReturn :=
  let info := Eff.log ("info") ("inviting account " ++ account_id ++ " to join Org")
  if args.exec then
    let handshake := client.inviteHandshake account_id
    ([info, Eff.inviteAccountToOrganization account_id,
      Eff.log ("info") ("account invite handshake Id: " ++ handshake.Id)],
     InviteReturn.returned (some handshake))
  else ([info], InviteReturn.returned none)

/-- `invite_account` (accounts.py lines 155-187): check the preconditions in
order — the option must be present and truthy, structurally valid, not an id
of a deployed account; then scan the existing invitations, and refuse when a
matching handshake is `ACCEPTED`, `REQUESTED` or `OPEN`; only then issue the
invitation. -/
def invite_account (args : Args) (client : OrgClient)
    (deployed_accounts : List DeployedAccount) : List Eff × InviteReturn :=
  match args.invitedAccountId with
  | none =>
      ([Eff.log ("critical") ("option \x27--invited-account-id\x27 not defined")],
       InviteReturn.exited 1)
  | some account_id =>
      if account_id = "" then
        ([Eff.log ("critical") ("option \x27--invited-account-id\x27 not defined")],
         InviteReturn.exited 1)
      else if ¬ valid_account_id account_id then
        ([Eff.log ("critical")
           ("option \x27--invited-account-id\x27 must be a valid account Id")],
         InviteReturn.exited 1)
      else if (lookup deployed_accounts (fun a => a.Id) account_id).isSome then
        ([Eff.log ("error") ("account " ++ account_id ++ " already in organization")],
         InviteReturn.returned none)
      else
        let scanR := scan_invited_accounts client
        match account_invite_for client account_id with
        | [] =>
            let t := invite_issue args client account_id
            (scanR.1 ++ t.1, t.2)
        | inv :: _ =>
            let dbg := [Eff.logData ("debug"), Eff.logData ("debug")]
            if inv.State = "ACCEPTED" then
              (scanR.1 ++ dbg ++
                 [Eff.log ("error")
                   ("Account " ++ account_id ++ " has already accepted a previous invite")],
               InviteReturn.returned none)
            else if inv.State = "REQUESTED" ∨ inv.State = "OPEN" then
              (scanR.1 ++ dbg ++
                 [Eff.log ("error")
                   ("Account " ++ account_id ++
                    " has already been invited to Org and status is " ++ inv.State)],
               InviteReturn.returned none)
            else
              let t := invite_issue args client account_id
              (scanR.1 ++ dbg ++ t.1, t.2)

/-! Helper lemmas about traces. -/

theorem mutations_nil : mutations [] = [] := rfl

theorem mutations_append (s t : List Eff) :
    mutations (s ++ t) = mutations s ++ mutations t := by
  simp [mutations]

theorem mutations_eq_nil_append (s t : List Eff) (hs : mutations s = [])
    (ht : mutations t = []) : mutations (s ++ t) = [] := by
  rw [mutations_append, hs, ht]
  rfl

@[simp] theorem isMutating_scanCreatedAccounts :
    Eff.scanCreatedAccounts.isMutating = false := rfl

@[simp] theorem isMutating_describe (rid : String) :
    (Eff.describeCreateAccountStatus rid).isMutating = false := rfl

@[simp] theorem isMutating_sleep (n : Nat) : (Eff.sleep n).isMutating = false := rfl

@[simp] theorem isMutating_listAccountAliases (aid : String) :
    (Eff.listAccountAliases aid).isMutating = false := rfl

@[simp] theorem isMutating_listHandshakes :
    Eff.listHandshakesForOrganization.isMutating = false := rfl

@[simp] theorem isMutating_log (lv m : String) : (Eff.log lv m).isMutating = false := rfl

@[simp] theorem isMutating_logData (lv : String) : (Eff.logData lv).isMutating = false := rfl

@[simp] theorem isMutating_createAccount (n e : String) :
    (Eff.createAccount n e).isMutating = true := rfl

@[simp] theorem isMutating_createAlias (aid al : String) :
    (Eff.createAccountAlias aid al).isMutating = true := rfl

@[simp] theorem isMutating_deleteAlias (aid al : String) :
    (Eff.deleteAccountAlias aid al).isMutating = true := rfl

@[simp] theorem isMutating_invite (aid : String) :
    (Eff.inviteAccountToOrganization aid).isMutating = true := rfl

theorem isMutating_scanHandshakePages (acc : List Handshake)
    (pages : List (List Handshake)) :
    ∀ e ∈ (scanHandshakePages acc pages).1, e.isMutating = false := by
  induction pages generalizing acc with
  | nil =>
      intro e he
      simp [scanHandshakePages] at he
  | cons p more ih =>
      intro e he
      simp only [scanHandshakePages, List.mem_cons] at he
      rcases he with rfl | he
      · rfl
      · exact ih (acc ++ p) e he

theorem isMutating_scan_invited_accounts (client : OrgClient) :
    ∀ e ∈ (scan_invited_accounts client).1, e.isMutating = false := by
  intro e he
  simp only [scan_invited_accounts, List.mem_cons, List.mem_append,
    List.mem_singleton] at he
  rcases he with (rfl | he) | (rfl | hf)
  · rfl
  · exact isMutating_scanHandshakePages _ _ e he
  · rfl
  · exact absurd hf (List.not_mem_nil e)

theorem mutations_eq_nil_of_forall (t : List Eff)
    (h : ∀ e ∈ t, e.isMutating = false) : mutations t = [] := by
  simp only [mutations, List.filter_eq_nil_iff]
  intro a ha
  simp [h a ha]

theorem mutations_scan_invited_accounts (client : OrgClient) :
    mutations (scan_invited_accounts client).1 = [] :=
  mutations_eq_nil_of_forall _ (isMutating_scan_invited_accounts client)

theorem mutations_create_accounts_go_noexec (client : OrgClient) (args : Args)
    (deployed : List DeployedAccount) (dd : String) (l : List AccountSpecEntry)
    (h : args.exec = false) :
    mutations (create_accounts_go client args deployed dd l) = [] := by
  induction l with
  | nil => rfl
  | cons aSpec rest ih =>
      simp only [create_accounts_go]
      split
      · exact ih
      · split
        · simp [mutations, Eff.isMutating]
        · simp [mutations, Eff.isMutating, create_account_entry, h,
            mutations_append, List.filter_append] at ih ⊢
          exact ih

theorem mutations_set_account_alias_noexec (account : DeployedAccount) (args : Args)
    (spec : OrgSpec) (assumeRole : String → String → Except String IamClient)
    (role : String) (h : args.exec = false) :
    mutations (set_account_alias account args spec assumeRole role).1 = [] := by
  simp only [set_account_alias]
  split
  · split
    · simp [mutations, Eff.isMutating]
    · split
      · simp [h, mutations, Eff.isMutating]
      · split
        · simp [mutations, Eff.isMutating]
        · simp [h, mutations, Eff.isMutating]
  · simp [mutations]

theorem mutations_invite_account_noexec (args : Args) (client : OrgClient)
    (deployed : List DeployedAccount) (h : args.exec = false) :
    mutations (invite_account args client deployed).1 = [] := by
  obtain ⟨e, r, i⟩ := args
  simp only at h
  subst h
  cases i with
  | none => rfl
  | some id =>
      simp only [invite_account]
      repeat' split
      all_goals
        simp [mutations, invite_issue, isMutating_scanHandshakePages]
      all_goals exact isMutating_scan_invited_accounts client

/-- Claim C1: for every mode and every spec/deployed state, if the exec flag
is absent then no mutating remote call (create_account,
create_account_alias, delete_account_alias,
invite_account_to_organization) is issued by create_accounts,
set_account_alias or invite_account; only reads and logging occur. -/
theorem C1_dry_run_no_mutating_calls (client : OrgClient) (args : Args)
    (deployed : List DeployedAccount) (spec : OrgSpec) (account : DeployedAccount)
    (assumeRole : String → String → Except String IamClient) (role : String)
    (hexec : args.exec = false) :
    mutations (create_accounts client args deployed spec) = [] ∧
    mutations (set_account_alias account args spec assumeRole role).1 = [] ∧
    mutations (invite_account args client deployed).1 = [] :=
  ⟨mutations_create_accounts_go_noexec client args deployed spec.default_domain
      spec.accounts hexec,
   mutations_set_account_alias_noexec account args spec assumeRole role hexec,
   mutations_invite_account_noexec args client deployed hexec⟩

/-! Concrete inputs used by witnesses. -/

/-- A concrete organizations-client environment. -/
def wClient : OrgClient where
  createdAccounts := []
  createAccountId := fun _ _ => "car-000"
  describeStatus := fun _ _ => { State := "SUCCEEDED" }
  handshakeFirstPage := []
  handshakeMorePages := []
  inviteHandshake := fun i =>
    { Id := "h-000", Parties := [{ Id := i, PartyType := "ACCOUNT" }], State := "OPEN" }

/-- A concrete argument record with the exec flag absent. -/
def wArgsNoExec : Args where
  exec := false
  orgAccessRole := "OrgAccessRole"
  invitedAccountId := some ("123456789012")

/-- A concrete specification document. -/
def wSpec : OrgSpec where
  default_domain := "example.com"
  accounts := [{ Name := "Acme", Email := some ("bob@example.com"), Alias := some ("acme") }]

/-- A concrete deployed account. -/
def wAccount : DeployedAccount where
  Id := "210987654321"
  Name := "Widgets"
  Email := "w@example.com"
  Status := "ACTIVE"

/-- A concrete role-assumption environment that always succeeds and whose
IAM session reports no alias. -/
def wAssumeRole : String → String → Except String IamClient :=
  fun _ _ => Except.ok { AccountAliases := [], createAliasExc := fun _ => none }

theorem C1_dry_run_no_mutating_calls_witness :
    mutations (create_accounts wClient wArgsNoExec [] wSpec) = [] ∧
    mutations (set_account_alias wAccount wArgsNoExec wSpec wAssumeRole "r").1 = [] ∧
    mutations (invite_account wArgsNoExec wClient []).1 = [] :=
  C1_dry_run_no_mutating_calls wClient wArgsNoExec [] wSpec wAccount wAssumeRole
    ("r") rfl

/-! Pagination (claim C9). -/

theorem scanHandshakePages_spec (acc : List Handshake)
    (pages : List (List Handshake)) :
    (scanHandshakePages acc pages).2 = acc ++ pages.flatten ∧
    (scanHandshakePages acc pages).1.countP
      (fun e => e == Eff.listHandshakesForOrganization) = pages.length := by
  induction pages generalizing acc with
  | nil => simp [scanHandshakePages]
  | cons p more ih =>
      have h := ih (acc ++ p)
      simp [scanHandshakePages, h.1, h.2, List.countP_cons, List.append_assoc]

/-- Claim C9: scan_invited_accounts follows continuation tokens until
exhausted and returns the concatenation, in discovery order, of the
Handshakes of every page of the remote listing — no page omitted, nothing
added, no silent truncation — issuing exactly one listing call per page. -/
theorem C9_pagination_completeness (client : OrgClient) :
    (scan_invited_accounts client).2 =
      (client.handshakeFirstPage :: client.handshakeMorePages).flatten ∧
    (scan_invited_accounts client).1.countP
      (fun e => e == Eff.listHandshakesForOrganization) =
      client.handshakeMorePages.length + 1 := by
  have h := scanHandshakePages_spec client.handshakeFirstPage
    client.handshakeMorePages
  constructor
  · simp [scan_invited_accounts, h.1]
  · simp [scan_invited_accounts, List.countP_cons, List.countP_append, h.2]

/-! Idempotence of create (claim C5). -/

theorem create_accounts_go_all_matched (client : OrgClient) (args : Args)
    (deployed : List DeployedAccount) (dd : String) (l : List AccountSpecEntry)
    (hall : ∀ e ∈ l, (lookup deployed (fun a => a.Name) e.Name).isSome = true) :
    create_accounts_go client args deployed dd l = [] := by
  induction l with
  | nil => rfl
  | cons a rest ih =>
      simp only [create_accounts_go]
      rw [if_pos (hall a (List.mem_cons_self a rest))]
      exact ih (fun e he => hall e (List.mem_cons_of_mem a he))

/-- Claim C5: a second exec run of create against the same spec, when every
spec account is already present by Name in the deployed accounts, emits no
effects at all, in particular zero additional create_account calls. -/
theorem C5_second_run_no_creations (client : OrgClient) (args : Args)
    (deployed : List DeployedAccount) (spec : OrgSpec)
    (hexec : args.exec = true)
    (hall : ∀ e ∈ spec.accounts,
      (lookup deployed (fun a => a.Name) e.Name).isSome = true) :
    create_accounts client args deployed spec = [] ∧
    mutations (create_accounts client args deployed spec) = [] := by
  have h : create_accounts client args deployed spec = [] :=
    create_accounts_go_all_matched client args deployed
      spec.default_domain spec.accounts hall
  exact ⟨h, by rw [h]; rfl⟩

/-- A concrete argument record with the exec flag set. -/
def wArgsExec : Args where
  exec := true
  orgAccessRole := "OrgAccessRole"
  invitedAccountId := none

/-- A concrete deployed list containing the single wSpec account by name. -/
def wDeployedAcme : List DeployedAccount :=
  [{ Id := "111122223333", Name := "Acme", Email := "bob@example.com",
     Status := "ACTIVE" }]

theorem C5_second_run_no_creations_witness :
    create_accounts wClient wArgsExec wDeployedAcme wSpec = [] ∧
    mutations (create_accounts wClient wArgsExec wDeployedAcme wSpec) = [] :=
  C5_second_run_no_creations wClient wArgsExec wDeployedAcme wSpec rfl
    (by decide)

/-! Creation-call correctness (claim C2). -/

/-- The create_account calls of a trace whose AccountName is the given
name. -/
def createCallsFor (name : String) (t : List Eff) : List Eff :=
  t.filter (fun e => match e with
    | Eff.createAccount n _ => n == name
    | _ => false)

/-- A client with one in-flight SUCCEEDED creation request named alpha. -/
def c2Client : OrgClient where
  createdAccounts := [{ RequestId := "car-A", AccountName := "alpha", State := "SUCCEEDED" }]
  createAccountId := fun _ _ => "car-X"
  describeStatus := fun _ _ => { State := "SUCCEEDED" }
  handshakeFirstPage := []
  handshakeMorePages := []
  inviteHandshake := fun i =>
    { Id := "h-1", Parties := [{ Id := i, PartyType := "ACCOUNT" }], State := "OPEN" }

/-- A spec naming alpha then beta. -/
def c2Spec : OrgSpec where
  default_domain := "corp.net"
  accounts := [{ Name := "alpha" }, { Name := "beta" }]

/-- Claim C2 counterexample: the entry beta is matched neither by Name in the
deployed accounts nor by an in-flight creation request, and exec mode is on,
yet create_accounts issues no creation call for beta: the earlier entry
alpha collides with an in-flight request, and the loop breaks before beta is
processed. -/
theorem C2_counterexample :
    lookup ([] : List DeployedAccount) (fun a => a.Name) ("beta") = none ∧
    lookup c2Client.createdAccounts (fun c => c.AccountName) ("beta") = none ∧
    createCallsFor ("beta")
      (create_accounts c2Client { exec := true } [] c2Spec) = [] :=
  ⟨rfl, by decide, by decide⟩

theorem create_account_mem_go (client : OrgClient) (args : Args)
    (deployed : List DeployedAccount) (dd : String) (l : List AccountSpecEntry)
    (hexec : args.exec = true)
    (hnocol : ∀ x ∈ l, lookup deployed (fun a => a.Name) x.Name = none →
      lookup client.createdAccounts (fun c => c.AccountName) x.Name = none)
    (e : AccountSpecEntry) (he : e ∈ l)
    (hmiss : lookup deployed (fun a => a.Name) e.Name = none) :
    Eff.createAccount e.Name (email_for e dd) ∈
      create_accounts_go client args deployed dd l := by
  induction l with
  | nil => cases he
  | cons a rest ih =>
      have ihr := fun h2 =>
        ih (fun x hx => hnocol x (List.mem_cons_of_mem a hx)) h2
      rcases List.mem_cons.mp he with rfl | he2
      · simp only [create_accounts_go, hmiss,
          hnocol e (List.mem_cons_self e rest) hmiss]
        simp [create_account_entry, hexec]
      · simp only [create_accounts_go]
        split
        · exact ihr he2
        · rename_i h1
          have hnone : lookup deployed (fun x => x.Name) a.Name = none := by
            cases hl : lookup deployed (fun x => x.Name) a.Name with
            | none => rfl
            | some v => rw [hl] at h1; simp at h1
          rw [hnocol a (List.mem_cons_self a rest) hnone]
          simp only [Option.isSome_none, Bool.false_eq_true, if_false]
          exact List.mem_cons_of_mem _ (List.mem_append_right _ (ihr he2))

/-- Claim C2 (amended): provided no spec entry is simultaneously absent from
the deployed accounts and matched by an in-flight creation request (the
first such collision halts processing), every AccountSpec entry not matched
by Name in the deployed accounts gets, in exec mode, a creation call whose
AccountName is the spec Name and whose Email is the spec Email when present
and non-empty, otherwise Name@default_domain. -/
theorem C2_creation_call_fields (client : OrgClient) (args : Args)
    (deployed : List DeployedAccount) (spec : OrgSpec)
    (hexec : args.exec = true)
    (hnocol : ∀ x ∈ spec.accounts,
      lookup deployed (fun a => a.Name) x.Name = none →
      lookup client.createdAccounts (fun c => c.AccountName) x.Name = none)
    (e : AccountSpecEntry) (he : e ∈ spec.accounts)
    (hmiss : lookup deployed (fun a => a.Name) e.Name = none) :
    Eff.createAccount e.Name
      (match e.Email with
       | some em => if em = "" then e.Name ++ "@" ++ spec.default_domain else em
       | none => e.Name ++ "@" ++ spec.default_domain) ∈
      create_accounts client args deployed spec :=
  create_account_mem_go client args deployed spec.default_domain spec.accounts
    hexec hnocol e he hmiss

theorem C2_creation_call_fields_witness :
    Eff.createAccount ("Acme") ("bob@example.com") ∈
      create_accounts wClient wArgsExec [] wSpec :=
  C2_creation_call_fields wClient wArgsExec [] wSpec rfl (by decide)
    { Name := "Acme", Email := some ("bob@example.com"), Alias := some ("acme") }
    (by decide) rfl

/-! Collision handling (claim C7). -/

/-- A client with one in-flight SUCCEEDED creation request named ops. -/
def c7Client : OrgClient where
  createdAccounts := [{ RequestId := "car-7", AccountName := "ops", State := "SUCCEEDED" }]
  createAccountId := fun _ _ => "car-Y"
  describeStatus := fun _ _ => { State := "SUCCEEDED" }
  handshakeFirstPage := []
  handshakeMorePages := []
  inviteHandshake := fun i =>
    { Id := "h-2", Parties := [{ Id := i, PartyType := "ACCOUNT" }], State := "OPEN" }

/-- A spec naming ops then dev. -/
def c7Spec : OrgSpec where
  default_domain := "firm.io"
  accounts := [{ Name := "ops" }, { Name := "dev" }]

/-- Claim C7 counterexample: spec lists ops then dev, deployed is empty, and
an in-flight SUCCEEDED request matches ops.  create_accounts logs the skip
for ops and then stops: dev, although absent from deployed accounts and
unmatched by any request, is never processed — the whole trace is the one
scan and the warning, with no creation call for dev — refuting the claimed
continuation with the remaining spec accounts. -/
theorem C7_counterexample :
    create_accounts c7Client { exec := true } [] c7Spec =
      [Eff.scanCreatedAccounts,
       Eff.log ("warn") ("New account \x27ops\x27 is not yet available")] ∧
    lookup ([] : List DeployedAccount) (fun a => a.Name) ("dev") = none ∧
    lookup c7Client.createdAccounts (fun c => c.AccountName) ("dev") = none ∧
    createCallsFor ("dev")
      (create_accounts c7Client { exec := true } [] c7Spec) = [] :=
  ⟨by decide, rfl, by decide, by decide⟩

/-- Claim C7 (amended): when a spec account absent from the deployed
accounts has a matching in-flight creation request, create_accounts logs
the skip and halts further creation processing for the run — the trace is
the re-scan plus the warning, whatever entries follow; this is non-fatal
(an ordinary return, no exit). -/
theorem C7_skip_logs_and_halts (client : OrgClient) (args : Args)
    (deployed : List DeployedAccount) (dd : String) (e : AccountSpecEntry)
    (rest : List AccountSpecEntry)
    (hmiss : lookup deployed (fun a => a.Name) e.Name = none)
    (hcol : (lookup client.createdAccounts
      (fun c => c.AccountName) e.Name).isSome = true) :
    create_accounts client args deployed
        { default_domain := dd, accounts := e :: rest } =
      [Eff.scanCreatedAccounts,
       Eff.log ("warn") ("New account \x27" ++ e.Name ++ "\x27 is not yet available")] := by
  simp [create_accounts, create_accounts_go, hmiss, hcol]

theorem C7_skip_logs_and_halts_witness :
    create_accounts c7Client { exec := true } [] c7Spec =
      [Eff.scanCreatedAccounts,
       Eff.log ("warn") ("New account \x27ops\x27 is not yet available")] := by
  have h := C7_skip_logs_and_halts c7Client { exec := true } [] ("firm.io")
    { Name := "ops" } [{ Name := "dev" }] rfl (by decide)
  exact h

/-! Alias synchronization (claims C3, C10, C8). -/

theorem set_alias_mutations_no_alias (account : DeployedAccount) (args : Args)
    (spec : OrgSpec) (assumeRole : String → String → Except String IamClient)
    (role : String) (iam : IamClient)
    (hexec : args.exec = true) (hactive : account.Status = "ACTIVE")
    (hcred : assumeRole account.Id args.orgAccessRole = Except.ok iam)
    (h0 : iam.AccountAliases = []) :
    mutations (set_account_alias account args spec assumeRole role).1 =
      [Eff.createAccountAlias account.Id (proposed_alias_for spec account)] := by
  unfold set_account_alias
  rw [if_pos hactive]
  simp only [hcred, h0, hexec]
  cases hx : iam.createAliasExc (proposed_alias_for spec account) <;>
    simp [hx, mutations]

theorem set_alias_mutations_reset (account : DeployedAccount) (args : Args)
    (spec : OrgSpec) (assumeRole : String → String → Except String IamClient)
    (role : String) (iam : IamClient) (a0 : String) (rest : List String)
    (hexec : args.exec = true) (hactive : account.Status = "ACTIVE")
    (hcred : assumeRole account.Id args.orgAccessRole = Except.ok iam)
    (hal : iam.AccountAliases = a0 :: rest)
    (hne : a0 ≠ proposed_alias_for spec account) :
    mutations (set_account_alias account args spec assumeRole role).1 =
      [Eff.deleteAccountAlias account.Id a0,
       Eff.createAccountAlias account.Id (proposed_alias_for spec account)] := by
  unfold set_account_alias
  rw [if_pos hactive]
  simp only [hcred, hal, hexec]
  rw [if_neg hne]
  cases hx : iam.createAliasExc (proposed_alias_for spec account) <;>
    simp [hx, mutations]

theorem set_alias_mutations_match (account : DeployedAccount) (args : Args)
    (spec : OrgSpec) (assumeRole : String → String → Except String IamClient)
    (role : String) (iam : IamClient) (a0 : String) (rest : List String)
    (hactive : account.Status = "ACTIVE")
    (hcred : assumeRole account.Id args.orgAccessRole = Except.ok iam)
    (hal : iam.AccountAliases = a0 :: rest)
    (heq : a0 = proposed_alias_for spec account) :
    mutations (set_account_alias account args spec assumeRole role).1 = [] := by
  unfold set_account_alias
  rw [if_pos hactive]
  simp only [hcred, hal]
  rw [if_pos heq]
  simp [mutations]

theorem set_alias_error_trace (account : DeployedAccount) (args : Args)
    (spec : OrgSpec) (assumeRole : String → String → Except String IamClient)
    (role : String) (errmsg : String)
    (hactive : account.Status = "ACTIVE")
    (hcred : assumeRole account.Id args.orgAccessRole = Except.error errmsg) :
    (set_account_alias account args spec assumeRole role).1 =
      [Eff.log ("error") errmsg] ∧
    (set_account_alias account args spec assumeRole role).2 = false := by
  unfold set_account_alias
  rw [if_pos hactive]
  simp [hcred]

/-- Claim C3: for an ACTIVE deployed account processed by set_account_alias
in exec mode with working credentials: if the account has no alias, exactly
one create_account_alias call with the proposed alias (the matching spec
entry's Alias if present, otherwise the lowercased Name); if the existing
alias differs, exactly one delete_account_alias followed by exactly one
create_account_alias; if it matches, zero alias-mutating calls. -/
theorem C3_alias_convergence (account : DeployedAccount) (args : Args)
    (spec : OrgSpec) (assumeRole : String → String → Except String IamClient)
    (role : String) (iam : IamClient)
    (hexec : args.exec = true) (hactive : account.Status = "ACTIVE")
    (hcred : assumeRole account.Id args.orgAccessRole = Except.ok iam) :
    (iam.AccountAliases = [] →
      mutations (set_account_alias account args spec assumeRole role).1 =
        [Eff.createAccountAlias account.Id (proposed_alias_for spec account)]) ∧
    (∀ a0 rest, iam.AccountAliases = a0 :: rest →
      a0 ≠ proposed_alias_for spec account →
      mutations (set_account_alias account args spec assumeRole role).1 =
        [Eff.deleteAccountAlias account.Id a0,
         Eff.createAccountAlias account.Id (proposed_alias_for spec account)]) ∧
    (∀ a0 rest, iam.AccountAliases = a0 :: rest →
      a0 = proposed_alias_for spec account →
      mutations (set_account_alias account args spec assumeRole role).1 = []) :=
  ⟨fun h0 => set_alias_mutations_no_alias account args spec assumeRole role iam
      hexec hactive hcred h0,
   fun a0 rest hal hne => set_alias_mutations_reset account args spec assumeRole
      role iam a0 rest hexec hactive hcred hal hne,
   fun a0 rest hal heq => set_alias_mutations_match account args spec assumeRole
      role iam a0 rest hactive hcred hal heq⟩

theorem C3_alias_convergence_witness :
    mutations (set_account_alias wAccount wArgsExec wSpec wAssumeRole ("r")).1 =
      [Eff.createAccountAlias wAccount.Id (proposed_alias_for wSpec wAccount)] :=
  (C3_alias_convergence wAccount wArgsExec wSpec wAssumeRole ("r")
      { AccountAliases := [], createAliasExc := fun _ => none }
      rfl rfl rfl).1 rfl

/-- An unmanaged ACTIVE deployed account: no wSpec entry matches its name. -/
def c10Account : DeployedAccount where
  Id := "999988887777"
  Name := "Legacy"
  Email := "legacy@example.com"
  Status := "ACTIVE"

/-- A role-assumption environment whose IAM session reports the alias
oldname. -/
def c10AssumeRole : String → String → Except String IamClient :=
  fun _ _ => Except.ok { AccountAliases := ["oldname"], createAliasExc := fun _ => none }

/-- Claim C10: set_account_alias is applied to every deployed account
(alias mode maps it over the whole deployed list), and for an ACTIVE
account with no matching spec entry the proposed alias defaults to the
lowercased Name, so in exec mode an unmanaged ACTIVE account whose alias
differs from its lowercased Name has its alias deleted and rewritten. -/
theorem C10_unmanaged_active_alias_overwritten (deployed : List DeployedAccount)
    (account : DeployedAccount) (args : Args) (spec : OrgSpec)
    (assumeRole : String → String → Except String IamClient) (role : String)
    (iam : IamClient) (a0 : String) (rest : List String)
    (hexec : args.exec = true) (hactive : account.Status = "ACTIVE")
    (hmem : account ∈ deployed)
    (hunmanaged : lookup spec.accounts (fun s => s.Name) account.Name = none)
    (hcred : assumeRole account.Id args.orgAccessRole = Except.ok iam)
    (hal : iam.AccountAliases = a0 :: rest)
    (hdiff : a0 ≠ pyLower account.Name) :
    proposed_alias_for spec account = pyLower account.Name ∧
    mutations (set_account_alias account args spec assumeRole role).1 =
      [Eff.deleteAccountAlias account.Id a0,
       Eff.createAccountAlias account.Id (pyLower account.Name)] ∧
    queue_threads_alias deployed args spec assumeRole role =
      deployed.map (fun a => set_account_alias a args spec assumeRole role) := by
  have hp : proposed_alias_for spec account = pyLower account.Name := by
    unfold proposed_alias_for
    rw [hunmanaged]
  have hm := set_alias_mutations_reset account args spec assumeRole role iam a0
    rest hexec hactive hcred hal (by rw [hp]; exact hdiff)
  rw [hp] at hm
  exact ⟨hp, hm, rfl⟩

theorem C10_unmanaged_active_alias_overwritten_witness :
    proposed_alias_for wSpec c10Account = pyLower c10Account.Name ∧
    mutations (set_account_alias c10Account wArgsExec wSpec c10AssumeRole ("r")).1 =
      [Eff.deleteAccountAlias c10Account.Id ("oldname"),
       Eff.createAccountAlias c10Account.Id (pyLower c10Account.Name)] ∧
    queue_threads_alias [c10Account] wArgsExec wSpec c10AssumeRole ("r") =
      [c10Account].map
        (fun a => set_account_alias a wArgsExec wSpec c10AssumeRole ("r")) :=
  C10_unmanaged_active_alias_overwritten [c10Account] c10Account wArgsExec wSpec
    c10AssumeRole ("r")
    { AccountAliases := ["oldname"], createAliasExc := fun _ => none }
    ("oldname") [] rfl rfl (by decide) (by decide) rfl rfl (by decide)

/-- A role-assumption environment that always fails. -/
def c8AssumeRole : String → String → Except String IamClient :=
  fun _ _ => Except.error ("AccessDenied: cannot assume role")

/-- Claim C8: when credential acquisition fails for an account,
set_account_alias logs the error and performs no remote alias operation for
that account (its whole trace is the one error log), and alias
synchronization of the other accounts is unaffected: the alias-mode run is
the independent per-account application over the deployed list. -/
theorem C8_credential_failure_isolated (deployed : List DeployedAccount)
    (account : DeployedAccount) (args : Args) (spec : OrgSpec)
    (assumeRole : String → String → Except String IamClient) (role : String)
    (errmsg : String)
    (hactive : account.Status = "ACTIVE")
    (hcred : assumeRole account.Id args.orgAccessRole = Except.error errmsg) :
    (set_account_alias account args spec assumeRole role).1 =
      [Eff.log ("error") errmsg] ∧
    mutations (set_account_alias account args spec assumeRole role).1 = [] ∧
    queue_threads_alias deployed args spec assumeRole role =
      deployed.map (fun a => set_account_alias a args spec assumeRole role) := by
  have h := set_alias_error_trace account args spec assumeRole role errmsg
    hactive hcred
  exact ⟨h.1, by rw [h.1]; rfl, rfl⟩

theorem C8_credential_failure_isolated_witness :
    (set_account_alias wAccount wArgsExec wSpec c8AssumeRole ("r")).1 =
      [Eff.log ("error") ("AccessDenied: cannot assume role")] ∧
    mutations (set_account_alias wAccount wArgsExec wSpec c8AssumeRole ("r")).1 = [] ∧
    queue_threads_alias [wAccount] wArgsExec wSpec c8AssumeRole ("r") =
      [wAccount].map (fun a => set_account_alias a wArgsExec wSpec c8AssumeRole ("r")) :=
  C8_credential_failure_isolated [wAccount] wAccount wArgsExec wSpec c8AssumeRole
    ("r") ("AccessDenied: cannot assume role") rfl rfl

/-! Invitation preconditions (claim C4). -/

/-- Concrete exec-mode arguments naming an account to invite. -/
def c4Args : Args where
  exec := true
  orgAccessRole := "OrgAccessRole"
  invitedAccountId := some ("123456789012")

/-- Claim C4: invite_account applies its precondition checks in order and
refuses without issuing any invitation call when one fails: a missing or
falsy account id exits with status 1; a structurally invalid id exits with
status 1; an id already among the deployed accounts is refused with an
error log and a plain return; a matching handshake in state ACCEPTED is
refused; one in state REQUESTED or OPEN is refused; only when nothing
blocks is the invitation issued in exec mode, returning the new
handshake. -/
theorem C4_invite_preconditions (args : Args) (client : OrgClient)
    (deployed : List DeployedAccount) :
    ((args.invitedAccountId = none ∨ args.invitedAccountId = some "") →
      (invite_account args client deployed).2 = InviteReturn.exited 1 ∧
      mutations (invite_account args client deployed).1 = []) ∧
    (∀ id, args.invitedAccountId = some id → id ≠ "" →
      valid_account_id id = false →
      (invite_account args client deployed).2 = InviteReturn.exited 1 ∧
      mutations (invite_account args client deployed).1 = []) ∧
    (∀ id, args.invitedAccountId = some id → id ≠ "" →
      valid_account_id id = true →
      (lookup deployed (fun a => a.Id) id).isSome = true →
      (invite_account args client deployed).2 = InviteReturn.returned none ∧
      (invite_account args client deployed).1 =
        [Eff.log ("error") ("account " ++ id ++ " already in organization")]) ∧
    (∀ id inv tl, args.invitedAccountId = some id → id ≠ "" →
      valid_account_id id = true →
      lookup deployed (fun a => a.Id) id = none →
      account_invite_for client id = inv :: tl →
      inv.State = "ACCEPTED" →
      (invite_account args client deployed).2 = InviteReturn.returned none ∧
      mutations (invite_account args client deployed).1 = []) ∧
    (∀ id inv tl, args.invitedAccountId = some id → id ≠ "" →
      valid_account_id id = true →
      lookup deployed (fun a => a.Id) id = none →
      account_invite_for client id = inv :: tl →
      (inv.State = "REQUESTED" ∨ inv.State = "OPEN") →
      (invite_account args client deployed).2 = InviteReturn.returned none ∧
      mutations (invite_account args client deployed).1 = []) ∧
    (∀ id, args.invitedAccountId = some id → id ≠ "" →
      valid_account_id id = true →
      lookup deployed (fun a => a.Id) id = none →
      (match account_invite_for client id with
       | [] => True
       | inv :: _ => inv.State ≠ "ACCEPTED" ∧ inv.State ≠ "REQUESTED" ∧
           inv.State ≠ "OPEN") →
      args.exec = true →
      (invite_account args client deployed).2 =
        InviteReturn.returned (some (client.inviteHandshake id)) ∧
      mutations (invite_account args client deployed).1 =
        [Eff.inviteAccountToOrganization id]) := by
  refine ⟨?_, ?_, ?_, ?_, ?_, ?_⟩
  · rintro (h | h) <;> simp [invite_account, h, mutations]
  · intro id hsome hne hval
    simp [invite_account, hsome, hne, hval, mutations]
  · intro id hsome hne hval hmem
    simp [invite_account, hsome, hne, hval, hmem, mutations]
  · intro id inv tl hsome hne hval hnmem hmatch hacc
    have h2 : invite_account args client deployed =
        ((scan_invited_accounts client).1 ++
           ([Eff.logData ("debug"), Eff.logData ("debug")] ++
             [Eff.log ("error")
               ("Account " ++ id ++ " has already accepted a previous invite")]),
         InviteReturn.returned none) := by
      simp [invite_account, hsome, hne, hval, hnmem, hmatch, hacc]
    rw [h2]
    refine ⟨rfl, ?_⟩
    rw [mutations_append, mutations_scan_invited_accounts]
    rfl
  · intro id inv tl hsome hne hval hnmem hmatch hro
    have h2 : invite_account args client deployed =
        ((scan_invited_accounts client).1 ++
           ([Eff.logData ("debug"), Eff.logData ("debug")] ++
             [Eff.log ("error")
               ("Account " ++ id ++
                " has already been invited to Org and status is " ++ inv.State)]),
         InviteReturn.returned none) := by
      rcases hro with h | h <;>
        simp [invite_account, hsome, hne, hval, hnmem, hmatch, h]
    rw [h2]
    refine ⟨rfl, ?_⟩
    rw [mutations_append, mutations_scan_invited_accounts]
    rfl
  · intro id hsome hne hval hnmem hblock hexec
    cases hm : account_invite_for client id with
    | nil =>
        have h2 : invite_account args client deployed =
            ((scan_invited_accounts client).1 ++ (invite_issue args client id).1,
             (invite_issue args client id).2) := by
          simp [invite_account, hsome, hne, hval, hnmem, hm]
        rw [h2]
        constructor
        · simp [invite_issue, hexec]
        · rw [mutations_append, mutations_scan_invited_accounts]
          simp [invite_issue, hexec, mutations]
    | cons inv tl =>
        rw [hm] at hblock
        obtain ⟨hn1, hn2, hn3⟩ := hblock
        have h2 : invite_account args client deployed =
            ((scan_invited_accounts client).1 ++
               ([Eff.logData ("debug"), Eff.logData ("debug")] ++
                 (invite_issue args client id).1),
             (invite_issue args client id).2) := by
          simp [invite_account, hsome, hne, hval, hnmem, hm, hn1, hn2, hn3]
        rw [h2]
        constructor
        · simp [invite_issue, hexec]
        · rw [mutations_append, mutations_scan_invited_accounts]
          simp [invite_issue, hexec, mutations]

theorem C4_invite_preconditions_witness :
    (invite_account c4Args wClient []).2 =
      InviteReturn.returned (some (wClient.inviteHandshake ("123456789012"))) ∧
    mutations (invite_account c4Args wClient []).1 =
      [Eff.inviteAccountToOrganization ("123456789012")] :=
  (C4_invite_preconditions c4Args wClient []).2.2.2.2.2 ("123456789012") rfl
    (by decide) (by decide) rfl (by trivial) rfl

/-! Bounded polling (claim C6). -/

/-- The describe_create_account_status calls occurring in a trace. -/
def describeCount (t : List Eff) : Nat :=
  t.countP (fun e => match e with
    | Eff.describeCreateAccountStatus _ => true
    | _ => false)

/-- The sleep effects occurring in a trace. -/
def sleepCount (t : List Eff) : Nat :=
  t.countP (fun e => match e with
    | Eff.sleep _ => true
    | _ => false)

@[simp] theorem describeCount_nil : describeCount [] = 0 := rfl

@[simp] theorem describeCount_cons_describe (r : String) (t : List Eff) :
    describeCount (Eff.describeCreateAccountStatus r :: t) =
      describeCount t + 1 := by
  simp [describeCount, List.countP_cons]

@[simp] theorem describeCount_cons_sleep (n : Nat) (t : List Eff) :
    describeCount (Eff.sleep n :: t) = describeCount t := by
  simp [describeCount, List.countP_cons]

@[simp] theorem describeCount_cons_log (lv m : String) (t : List Eff) :
    describeCount (Eff.log lv m :: t) = describeCount t := by
  simp [describeCount, List.countP_cons]

@[simp] theorem describeCount_append (s t : List Eff) :
    describeCount (s ++ t) = describeCount s + describeCount t := by
  simp [describeCount, List.countP_append]

@[simp] theorem sleepCount_nil : sleepCount [] = 0 := rfl

@[simp] theorem sleepCount_cons_describe (r : String) (t : List Eff) :
    sleepCount (Eff.describeCreateAccountStatus r :: t) = sleepCount t := by
  simp [sleepCount, List.countP_cons]

@[simp] theorem sleepCount_cons_sleep (n : Nat) (t : List Eff) :
    sleepCount (Eff.sleep n :: t) = sleepCount t + 1 := by
  simp [sleepCount, List.countP_cons]

@[simp] theorem sleepCount_cons_log (lv m : String) (t : List Eff) :
    sleepCount (Eff.log lv m :: t) = sleepCount t := by
  simp [sleepCount, List.countP_cons]

@[simp] theorem sleepCount_append (s t : List Eff) :
    sleepCount (s ++ t) = sleepCount s + sleepCount t := by
  simp [sleepCount, List.countP_append]

theorem pollLoop_describeCount_le (d : Nat → CreateStatus) (cid name : String)
    (c f : Nat) : describeCount (pollLoop d cid name c f).1 ≤ f := by
  induction f generalizing c with
  | zero => simp [pollLoop]
  | succ f1 ih =>
      simp only [pollLoop]
      split
      · have hb := ih (c + 1)
        simp
        omega
      · split
        · simp
        · split
          · simp
          · have hb := ih (c + 1)
            simp
            omega

theorem pollLoop_all_in_progress (d : Nat → CreateStatus) (cid name : String)
    (c f : Nat)
    (h : ∀ i, c ≤ i → i < c + f → (d i).State = "IN_PROGRESS") :
    describeCount (pollLoop d cid name c f).1 = f ∧
    sleepCount (pollLoop d cid name c f).1 = f ∧
    (pollLoop d cid name c f).2.1 = c + f ∧
    (0 < f → ∃ cs, (pollLoop d cid name c f).2.2 = some cs ∧
      cs.State = "IN_PROGRESS") := by
  induction f generalizing c with
  | zero => simp [pollLoop]
  | succ f1 ih =>
      have hc : (d c).State = "IN_PROGRESS" := h c le_rfl (by omega)
      have ihc := ih (c + 1) (fun i h1 h2 => h i (by omega) (by omega))
      have heq : pollLoop d cid name c (f1 + 1) =
          (Eff.describeCreateAccountStatus cid :: Eff.sleep 5 ::
             Eff.log ("info")
               ("Account creation in progress for \x27" ++ name ++ "\x27") ::
             (pollLoop d cid name (c + 1) f1).1,
           (pollLoop d cid name (c + 1) f1).2.1,
           some ((pollLoop d cid name (c + 1) f1).2.2.getD (d c))) := by
        simp [pollLoop, hc]
      refine ⟨?_, ?_, ?_, ?_⟩
      · rw [heq]
        simp [ihc.1]
      · rw [heq]
        simp [ihc.2.1]
      · rw [heq]
        have hco := ihc.2.2.1
        simp only []
        omega
      · intro hf
        rw [heq]
        rcases Nat.eq_zero_or_pos f1 with h0 | hpos
        · subst h0
          exact ⟨d c, rfl, hc⟩
        · obtain ⟨cs, hcs, hst⟩ := ihc.2.2.2 hpos
          refine ⟨cs, ?_, hst⟩
          show some ((pollLoop d cid name (c + 1) f1).2.2.getD (d c)) = some cs
          rw [hcs]
          rfl

theorem pollLoop_terminal (d : Nat → CreateStatus) (cid name : String)
    (c f j : Nat) (hcj : c ≤ j) (hjf : j < c + f)
    (hterm : (d j).State = "SUCCEEDED" ∨ (d j).State = "FAILED")
    (hpre : ∀ i, c ≤ i → i < j → (d i).State = "IN_PROGRESS") :
    describeCount (pollLoop d cid name c f).1 = j - c + 1 ∧
    sleepCount (pollLoop d cid name c f).1 = j - c ∧
    (pollLoop d cid name c f).2.1 = j := by
  induction f generalizing c with
  | zero => omega
  | succ f1 ih =>
      by_cases hcq : c = j
      · subst hcq
        rcases hterm with hs | hf2
        · have heq : pollLoop d cid name c (f1 + 1) =
              ([Eff.describeCreateAccountStatus cid,
                Eff.log ("info") ("Account creation succeeded")], c, some (d c)) := by
            simp [pollLoop, hs]
          rw [heq]
          refine ⟨by simp, by simp, rfl⟩
        · have heq : pollLoop d cid name c (f1 + 1) =
              ([Eff.describeCreateAccountStatus cid,
                Eff.log ("error")
                  ("Account creation failed: " ++ (d c).FailureReason)],
               c, some (d c)) := by
            simp [pollLoop, hf2]
          rw [heq]
          refine ⟨by simp, by simp, rfl⟩
      · have hlt : c < j := by omega
        have hcp : (d c).State = "IN_PROGRESS" := hpre c le_rfl hlt
        have ihc := ih (c + 1) (by omega) (by omega)
          (fun i h1 h2 => hpre i (by omega) h2)
        have heq : pollLoop d cid name c (f1 + 1) =
            (Eff.describeCreateAccountStatus cid :: Eff.sleep 5 ::
               Eff.log ("info")
                 ("Account creation in progress for \x27" ++ name ++ "\x27") ::
               (pollLoop d cid name (c + 1) f1).1,
             (pollLoop d cid name (c + 1) f1).2.1,
             some ((pollLoop d cid name (c + 1) f1).2.2.getD (d c))) := by
          simp [pollLoop, hcp]
        rw [heq]
        refine ⟨?_, ?_, ?_⟩
        · have h1 := ihc.1
          simp
          omega
        · have h1 := ihc.2.1
          simp
          omega
        · exact ihc.2.2

theorem pollLoop_sleep_five (d : Nat → CreateStatus) (cid name : String)
    (c f : Nat) :
    ∀ s, Eff.sleep s ∈ (pollLoop d cid name c f).1 → s = 5 := by
  induction f generalizing c with
  | zero =>
      intro s hs
      simp [pollLoop] at hs
  | succ f1 ih =>
      intro s hs
      simp only [pollLoop] at hs
      split at hs
      · simp only [List.mem_cons] at hs
        rcases hs with h | h | h | h
        · exact absurd h (by simp)
        · exact Eff.sleep.inj h
        · exact absurd h (by simp)
        · exact ih (c + 1) s h
      · split at hs
        · simp at hs
        · split at hs
          · simp at hs
          · simp only [List.mem_cons] at hs
            rcases hs with h | h
            · exact absurd h (by simp)
            · exact ih (c + 1) s h

theorem pollLoop_no_warn (d : Nat → CreateStatus) (cid name : String)
    (c f : Nat) (m : String) :
    Eff.log ("warn") m ∉ (pollLoop d cid name c f).1 := by
  induction f generalizing c with
  | zero => simp [pollLoop]
  | succ f1 ih =>
      simp only [pollLoop]
      split
      · simp [List.mem_cons, ih (c + 1)]
      · split
        · simp
        · split
          · simp
          · simp [List.mem_cons, ih (c + 1)]

theorem validate_creation_terminal (client : OrgClient) (cid name : String)
    (j : Nat) (hj : j < 5)
    (hterm : (client.describeStatus cid j).State = "SUCCEEDED" ∨
             (client.describeStatus cid j).State = "FAILED")
    (hpre : ∀ i, i < j → (client.describeStatus cid i).State = "IN_PROGRESS") :
    describeCount (validate_creation client cid name) = j + 1 ∧
    sleepCount (validate_creation client cid name) = j ∧
    Eff.log ("warn") ("Account creation still pending. Moving on!") ∉
      validate_creation client cid name := by
  have hp := pollLoop_terminal (client.describeStatus cid) cid name 0 5 j
    (Nat.zero_le j) (by omega) hterm (fun i h1 h2 => hpre i h2)
  simp only [validate_creation]
  rw [if_neg (by rw [hp.2.2]; omega)]
  refine ⟨?_, ?_, ?_⟩
  · have h1 := hp.1
    simp
    omega
  · have h1 := hp.2.1
    simp
    omega
  · simp [pollLoop_no_warn]

theorem validate_creation_exhausted (client : OrgClient) (cid name : String)
    (h : ∀ i, i < 5 → (client.describeStatus cid i).State = "IN_PROGRESS") :
    describeCount (validate_creation client cid name) = 5 ∧
    sleepCount (validate_creation client cid name) = 5 ∧
    (validate_creation client cid name).getLast? =
      some (Eff.log ("warn") ("Account creation still pending. Moving on!")) := by
  have hp := pollLoop_all_in_progress (client.describeStatus cid) cid name 0 5
    (fun i h1 h2 => h i (by omega))
  obtain ⟨cs, hcs, hst⟩ := hp.2.2.2 (by omega)
  simp only [validate_creation]
  rw [if_pos ⟨by rw [hp.2.2.1], by rw [hcs]; simp [hst]⟩]
  refine ⟨?_, ?_, ?_⟩
  · simp [hp.1]
  · simp [hp.2.1]
  · simp [List.getLast?_concat]

/-- Claim C6: after submitting a creation request in exec mode the code
polls describe_create_account_status at most 5 times, every sleep between
attempts is 5 seconds, it stops polling as soon as the state is SUCCEEDED
or FAILED (after exactly j+1 polls when the terminal state shows on poll j,
with no pending warning), and when all 5 polls still show IN_PROGRESS it
ends with the still-pending warning and create_accounts goes on to the
remaining spec entries instead of failing or blocking. -/
theorem C6_poll_bounded (client : OrgClient) (cid name : String) :
    describeCount (validate_creation client cid name) ≤ 5 ∧
    (∀ s, Eff.sleep s ∈ validate_creation client cid name → s = 5) ∧
    (∀ j, j < 5 →
      ((client.describeStatus cid j).State = "SUCCEEDED" ∨
       (client.describeStatus cid j).State = "FAILED") →
      (∀ i, i < j → (client.describeStatus cid i).State = "IN_PROGRESS") →
      describeCount (validate_creation client cid name) = j + 1 ∧
      sleepCount (validate_creation client cid name) = j ∧
      Eff.log ("warn") ("Account creation still pending. Moving on!") ∉
        validate_creation client cid name) ∧
    ((∀ i, i < 5 → (client.describeStatus cid i).State = "IN_PROGRESS") →
      describeCount (validate_creation client cid name) = 5 ∧
      sleepCount (validate_creation client cid name) = 5 ∧
      (validate_creation client cid name).getLast? =
        some (Eff.log ("warn") ("Account creation still pending. Moving on!"))) ∧
    (∀ (args : Args) (deployed : List DeployedAccount) (dd : String)
       (e : AccountSpecEntry) (rest : List AccountSpecEntry),
      lookup deployed (fun a => a.Name) e.Name = none →
      lookup client.createdAccounts (fun c2 => c2.AccountName) e.Name = none →
      create_accounts_go client args deployed dd (e :: rest) =
        Eff.scanCreatedAccounts ::
          (create_account_entry client args dd e ++
            create_accounts_go client args deployed dd rest)) := by
  refine ⟨?_, ?_, ?_, ?_, ?_⟩
  · simp only [validate_creation]
    have hb := pollLoop_describeCount_le (client.describeStatus cid) cid name 0 5
    split <;> simp <;> omega
  · intro s hs
    simp only [validate_creation] at hs
    rcases List.mem_append.mp hs with h | h
    · exact pollLoop_sleep_five _ cid name 0 5 s h
    · revert h
      split <;> intro h <;> simp at h
  · intro j hj hterm hpre
    exact validate_creation_terminal client cid name j hj hterm hpre
  · intro h
    exact validate_creation_exhausted client cid name h
  · intro args deployed dd e rest hmiss hcol
    simp [create_accounts_go, hmiss, hcol]

/-- A client whose creation-status polls always report IN_PROGRESS. -/
def c6Client : OrgClient where
  createdAccounts := []
  createAccountId := fun _ _ => "car-Z"
  describeStatus := fun _ _ => { State := "IN_PROGRESS" }
  handshakeFirstPage := []
  handshakeMorePages := []
  inviteHandshake := fun i =>
    { Id := "h-3", Parties := [{ Id := i, PartyType := "ACCOUNT" }], State := "OPEN" }

theorem C6_poll_bounded_witness :
    describeCount (validate_creation c6Client ("car-Z") ("zeta")) = 5 ∧
    sleepCount (validate_creation c6Client ("car-Z") ("zeta")) = 5 ∧
    (validate_creation c6Client ("car-Z") ("zeta")).getLast? =
      some (Eff.log ("warn") ("Account creation still pending. Moving on!")) :=
  (C6_poll_bounded c6Client ("car-Z") ("zeta")).2.2.2.1 (fun i _ => rfl)

end AwsOrgs
